import Mathlib

/-
  Verification of the media-store API client
  (media_store_client/apiclient.py and media_store_client/utils/).

  The client is shallowly embedded: the HTTP transport is a parameter
  (a function from the issued request to the raw response), stateful
  methods take the client record and return the result together with
  the post-state client and the list of network calls they issued.
-/

namespace MediaStoreClient

/-- A JSON-equivalent value, as produced by `response.json()` and sent as the
`json=` payload of a request. -/
inductive JVal where
  | null
  | bool (b : Bool)
  | num (n : Int)
  | str (s : String)
  | arr (xs : List JVal)
  | obj (fields : List (String × JVal))


/-- Python truthiness of a JSON-equivalent value (`if x:`). -/
def JVal.truthy : JVal → Bool
  | .null => false
  | .bool b => b
  | .num n => n != 0
  | .str s => !s.isEmpty
  | .arr xs => !xs.isEmpty
  | .obj fs => !fs.isEmpty

/-- Dictionary lookup, as in Python `d.get(key)`: `none` when the key is
absent.  Only dict (`obj`) values are looked into; claims about `login`
restrict to dict response bodies, matching the Python code which would fail
on any other shape. -/
def JVal.lookup : JVal → String → Option JVal
  | .obj fs, k => fs.lookup k
  | _, _ => none

/-- Python `str()` rendering used when the token is interpolated into the
Bearer header.  Container renderings are placeholders: no theorem depends on
them, only on the header being a fixed function of the token. -/
def JVal.pyStr : JVal → String
  | .null => "None"
  | .bool true => "True"
  | .bool false => "False"
  | .num n => toString n
  | .str s => s
  | .arr _ => "<list>"
  | .obj _ => "<dict>"

/-- utils/api_response.py: the response envelope. -/
structure ApiResponse where
  status_code : Nat
  response : Option JVal := none
  error_message : Option String := none


/-- utils/custom_exception.py plus plain Python exceptions raised by the
client: each typed error carries its `ApiResponse`; `exception` is a plain
`Exception(message)`; `validationError` is an escaped pydantic
`ValidationError` from the external schema library (see `Schema`). -/
inductive ApiError where
  | localError (r : ApiResponse)
  | clientError (r : ApiResponse)
  | serverError (r : ApiResponse)
  | genericError (r : ApiResponse)
  | exception (msg : String)
  | validationError (schemaName : String)


/-- The raw transport-level response: its status code, parsed JSON body
(`response.json()`) and raw content (`response.content`). -/
structure HttpResponse where
  status_code : Nat
  json : JVal
  content : String


/-- One network request as handed to the `requests` library: the verb, the
url, the `headers=` kwarg and the `json=` kwarg (absent when no body is
attached). -/
structure NetworkCall where
  method : String
  url : String
  headers : Option (List (String × String))
  body : Option JVal


/-- The HTTP transport, abstracting the `requests` library. -/
abbrev Transport := NetworkCall → HttpResponse

/-- The client state (`ApiClient.__init__` fields).  `default_reties` is
declared in the source but never read, so it is not modelled. -/
structure ApiClient where
  base_url : String
  username : String
  password : String
  token : Option JVal := none
  headers : Option (List (String × String)) := none


/-- Python `if not self.token`: false when the token is `None` or falsy. -/
def ApiClient.tokenTruthy (c : ApiClient) : Bool :=
  match c.token with
  | none => false
  | some t => t.truthy

/-- Truthiness of the optional `params` argument (`if params:`). -/
def paramsTruthy : Option JVal → Bool
  | none => false
  | some p => p.truthy

/-- The `json=` kwarg attached by `make_request`: present exactly when
`params` is truthy. -/
def requestBody (params : Option JVal) : Option JVal :=
  if paramsTruthy params then params else none

/-- Whether the verb is one of the five strings recognised by the
if/elif dispatch chain of `make_request`. -/
def supportedVerb (method : String) : Bool :=
  method == "get" || method == "post" || method == "put" ||
    method == "patch" || method == "delete"

/-- The network call issued by `make_request` for the given arguments:
the stored auth headers, and a body exactly when `params` is truthy. -/
def mkCall (c : ApiClient) (url method : String) (params : Option JVal) : NetworkCall :=
  { method := method, url := url, headers := c.headers, body := requestBody params }

/-- The five-way status-code switch at the end of `make_request`
(apiclient.py lines 94-124). -/
def classify (resp : HttpResponse) : Except ApiError ApiResponse :=
  if resp.status_code = 200 then
    .ok { status_code := resp.status_code, response := some resp.json }
  else if resp.status_code = 204 then
    .ok { status_code := resp.status_code }
  else if 400 ≤ resp.status_code ∧ resp.status_code < 500 then
    .error (.clientError
      { status_code := resp.status_code, error_message := some resp.content })
  else if 500 ≤ resp.status_code ∧ resp.status_code < 600 then
    .error (.serverError
      { status_code := resp.status_code, error_message := some resp.content })
  else
    .error (.genericError
      { status_code := resp.status_code, error_message := some resp.content })

/-- `ApiClient.make_request`: token check, kwarg assembly, verb dispatch
(the five `requests.<verb>` branches are identical up to the verb, which the
transport receives), then the status-code switch.  Returns the result, the
post-state client and the network calls issued. -/
def ApiClient.make_request (c : ApiClient) (t : Transport) (url : String)
    (method : String) (params : Option JVal := none) :
    Except ApiError ApiResponse × ApiClient × List NetworkCall :=
  if c.tokenTruthy = false then
    (.error (.localError
      { status_code := 401,
        error_message := some "No bearer token found. Please login first." }), c, [])
  else if supportedVerb method = false then
    (.error (.localError
      { status_code := 405,
        error_message := some ("Method not supported: " ++ method) }), c, [])
  else
    (classify (t (mkCall c url method params)), c, [mkCall c url method params])

/-- The login request: `requests.post(login_url, json=login_data)` — no
auth headers, credentials always attached as the body. -/
def loginCall (c : ApiClient) : NetworkCall :=
  { method := "post", url := c.base_url ++ "/api/login", headers := none,
    body := some (.obj [("username", .str c.username), ("password", .str c.password)]) }

/-- `ApiClient.login`: on a 200 response the token is assigned from the
body (possibly `None`); a truthy token derives the Bearer header, any other
outcome raises a plain `Exception` with a message. -/
def ApiClient.login (c : ApiClient) (t : Transport) :
    Except ApiError Unit × ApiClient × List NetworkCall :=
  let response := t (loginCall c)
  if response.status_code = 200 then
    let token := response.json.lookup "token"
    let c2 := { c with token := token }
    match token with
    | some tok =>
      if tok.truthy then
        (.ok (), { c2 with headers := some [("Authorization", "Bearer " ++ tok.pyStr)] },
          [loginCall c])
      else
        (.error (.exception "Token not found in response."), c2, [loginCall c])
    | none => (.error (.exception "Token not found in response."), c2, [loginCall c])
  else
    (.error (.exception ("Failed to retrieve token. Status code: "
      ++ toString response.status_code)), c, [loginCall c])

/-- `ApiClient.hello`: a direct `requests.get` on /api/hello with the stored
headers — it does not go through `make_request` and performs no token
check. -/
def ApiClient.hello (c : ApiClient) (t : Transport) :
    Except ApiError JVal × ApiClient × List NetworkCall :=
  let call : NetworkCall :=
    { method := "get", url := c.base_url ++ "/api/hello", headers := c.headers,
      body := none }
  let response := t call
  if response.status_code = 200 then
    (.ok response.json, c, [call])
  else
    (.error (.exception ("Failed to ping media store. Status code: "
      ++ toString response.status_code)), c, [call])

/-- Modelled from the spec: a pydantic model class of the external
`schemas.mediastore` library (not part of this repository).  Constructing it
from keyword params either succeeds, yielding the `model_dump()` payload, or
raises `ValidationError`; `validate` returns `none` in the latter case. -/
structure Schema where
  name : String
  validate : List (String × JVal) → Option JVal

/-- `ApiClient.validate_schema`: construct-and-dump, turning a
`ValidationError` into a `ClientError` with a synthetic 400 envelope. -/
def ApiClient.validate_schema (_c : ApiClient) (schema_class : Schema)
    (schema_params : List (String × JVal)) : Except ApiError JVal :=
  match schema_class.validate schema_params with
  | some dump => .ok dump
  | none => .error (.clientError
      { status_code := 400,
        error_message := some ("Schema validation failed for " ++ schema_class.name) })

def ApiClient.list_media (c : ApiClient) (t : Transport) :
    Except ApiError ApiResponse × ApiClient × List NetworkCall :=
  c.make_request t (c.base_url ++ "/api/media/dump") "get"

def ApiClient.get_single_media (c : ApiClient) (t : Transport) (pid : String) :
    Except ApiError ApiResponse × ApiClient × List NetworkCall :=
  c.make_request t (c.base_url ++ "/api/media/" ++ pid) "get"

def ApiClient.delete_single_media (c : ApiClient) (t : Transport) (pid : String) :
    Except ApiError ApiResponse × ApiClient × List NetworkCall :=
  c.make_request t (c.base_url ++ "/api/media/" ++ pid) "delete"

def ApiClient.get_bulk_media (c : ApiClient) (t : Transport) (pid_list : List String) :
    Except ApiError ApiResponse × ApiClient × List NetworkCall :=
  c.make_request t (c.base_url ++ "/api/media/read") "post"
    (some (.arr (pid_list.map .str)))

def ApiClient.delete_bulk_media (c : ApiClient) (t : Transport) (pid_list : List String) :
    Except ApiError ApiResponse × ApiClient × List NetworkCall :=
  c.make_request t (c.base_url ++ "/api/media/delete") "post"
    (some (.arr (pid_list.map .str)))

/-- One entry of the `metadata_list` argument: a dict holding `pid` and
optionally `keys` and/or `data`. -/
structure MetadataItem where
  pid : String
  keys : Option (List String) := none
  data : Option JVal := none

/-- Modelled from the spec: `MediaSchemaUpdateMetadata.model_dump()` of the
external `schemas.mediastore` library.  Per the spec the metadata-update
body is a list of `\x7bpid, data?|keys?\x7d` records, so the dump carries `pid`
plus whichever of `keys`/`data` the caller supplied. -/
def MediaSchemaUpdateMetadata_dump (item : MetadataItem) : JVal :=
  .obj ([("pid", .str item.pid)]
    ++ (match item.keys with
        | some ks => [("keys", JVal.arr (ks.map .str))]
        | none => [])
    ++ (match item.data with
        | some d => [("data", d)]
        | none => []))

/-- `ApiClient._delete_patch_update_metadata`: shape the per-pid schema
dumps and dispatch them to /api/media/update/metadata with the given verb. -/
def ApiClient.delete_patch_update_metadata (c : ApiClient) (t : Transport)
    (metadata_list : List MetadataItem) (method : String) :
    Except ApiError ApiResponse × ApiClient × List NetworkCall :=
  c.make_request t (c.base_url ++ "/api/media/update/metadata") method
    (some (.arr (metadata_list.map MediaSchemaUpdateMetadata_dump)))

def ApiClient.update_media_metadata (c : ApiClient) (t : Transport)
    (metadata_list : List MetadataItem) :
    Except ApiError ApiResponse × ApiClient × List NetworkCall :=
  c.delete_patch_update_metadata t metadata_list "put"

def ApiClient.patch_media_metadata (c : ApiClient) (t : Transport)
    (metadata_list : List MetadataItem) :
    Except ApiError ApiResponse × ApiClient × List NetworkCall :=
  c.delete_patch_update_metadata t metadata_list "patch"

def ApiClient.delete_media_metadata (c : ApiClient) (t : Transport)
    (metadata_list : List MetadataItem) :
    Except ApiError ApiResponse × ApiClient × List NetworkCall :=
  c.delete_patch_update_metadata t metadata_list "delete"

/-- The params dict assembled by `create_store` (`s3_url` only when
truthy). -/
def storeParams (type bucket : String) (s3_url : Option String) :
    List (String × JVal) :=
  [("type", JVal.str type), ("bucket", JVal.str bucket)]
    ++ (match s3_url with
        | some u => if u.isEmpty then [] else [("s3_url", JVal.str u)]
        | none => [])

def ApiClient.create_store (c : ApiClient) (t : Transport)
    (StoreConfigSchemaCreate : Schema) (type bucket : String)
    (s3_url : Option String := none) :
    Except ApiError ApiResponse × ApiClient × List NetworkCall :=
  match c.validate_schema StoreConfigSchemaCreate (storeParams type bucket s3_url) with
  | .error e => (.error e, c, [])
  | .ok store => c.make_request t (c.base_url ++ "/api/store") "post" (some store)

/-- The params dict assembled by `create_s3cfg`. -/
def s3cfgParams (url access_key secret_key : String) : List (String × JVal) :=
  [("url", JVal.str url), ("access_key", JVal.str access_key),
    ("secret_key", JVal.str secret_key)]

def ApiClient.create_s3cfg (c : ApiClient) (t : Transport)
    (S3ConfigSchemaCreate : Schema) (url access_key secret_key : String) :
    Except ApiError ApiResponse × ApiClient × List NetworkCall :=
  match c.validate_schema S3ConfigSchemaCreate (s3cfgParams url access_key secret_key) with
  | .error e => (.error e, c, [])
  | .ok s3_config => c.make_request t (c.base_url ++ "/api/s3cfg") "post" (some s3_config)

/-- The media params dict assembled by `create_single_media` around the
already-constructed store-config object. -/
def mediaParams (pid pid_type : String) (sc_obj : JVal)
    (identifiers metadata : Option JVal) (tags : Option JVal) :
    List (String × JVal) :=
  [("pid", JVal.str pid), ("pid_type", JVal.str pid_type), ("store_config", sc_obj)]
    ++ (match identifiers with
        | some v => if v.truthy then [("identifiers", v)] else []
        | none => [])
    ++ (match metadata with
        | some v => if v.truthy then [("metadata", v)] else []
        | none => [])
    ++ (match tags with
        | some v => if v.truthy then [("tags", v)] else []
        | none => [])

/-- `ApiClient.create_single_media`: note that
`StoreConfigSchemaCreate(**store_config)` is constructed OUTSIDE
`validate_schema`, so a `ValidationError` it raises escapes uncaught
(`ApiError.validationError`); only the subsequent `MediaSchemaCreate`
validation is wrapped into `ClientError`. -/
def ApiClient.create_single_media (c : ApiClient) (t : Transport)
    (StoreConfigSchemaCreate MediaSchemaCreate : Schema)
    (pid pid_type : String) (store_config : List (String × JVal))
    (identifiers : Option JVal := none) (metadata : Option JVal := none)
    (tags : Option JVal := none) :
    Except ApiError ApiResponse × ApiClient × List NetworkCall :=
  match StoreConfigSchemaCreate.validate store_config with
  | none => (.error (.validationError StoreConfigSchemaCreate.name), c, [])
  | some sc_obj =>
    match c.validate_schema MediaSchemaCreate
        (mediaParams pid pid_type sc_obj identifiers metadata tags) with
    | .error e => (.error e, c, [])
    | .ok media => c.make_request t (c.base_url ++ "/api/media") "post" (some media)

/-! ### Helper predicates and concrete fixtures -/

/-- The synthetic 401 envelope raised when no token is present. -/
def noTokenResponse : ApiResponse :=
  { status_code := 401,
    error_message := some "No bearer token found. Please login first." }

/-- Whether a result is a raised error (as opposed to a normal return). -/
def raised {α : Type} : Except ApiError α → Bool
  | .ok _ => false
  | .error _ => true

/-- Whether a result is a raised `LocalError`. -/
def isLocalError {α : Type} : Except ApiError α → Bool
  | .error (.localError _) => true
  | _ => false

/-- Whether a result is a raised `ClientError`. -/
def isClientError {α : Type} : Except ApiError α → Bool
  | .error (.clientError _) => true
  | _ => false

/-- The envelope a result carries: the returned one, or the one attached to
the raised typed error; plain message exceptions carry none. -/
def resultEnvelope : Except ApiError ApiResponse → Option ApiResponse
  | .ok r => some r
  | .error (.localError r) => some r
  | .error (.clientError r) => some r
  | .error (.serverError r) => some r
  | .error (.genericError r) => some r
  | .error (.exception _) => none
  | .error (.validationError _) => none

/-- Every call in the list carries exactly the given headers. -/
def callsCarryHeaders (h : Option (List (String × String))) : List NetworkCall → Bool
  | [] => true
  | cl :: rest => decide (cl.headers = h) && callsCarryHeaders h rest

/-- A freshly constructed client that has not obtained a token. -/
def noTokenClient : ApiClient :=
  { base_url := "http://ms", username := "u", password := "p" }

/-- A client holding a token, as after a successful login. -/
def authedClient : ApiClient :=
  { base_url := "http://ms", username := "u", password := "p",
    token := some (.str "tok"),
    headers := some [("Authorization", "Bearer tok")] }

/-- A transport answering every request with the same fixed response. -/
def demoTransport (resp : HttpResponse) : Transport := fun _ => resp

/-- A schema class rejecting every input (pydantic `ValidationError`). -/
def rejectAllSchema (name : String) : Schema :=
  { name := name, validate := fun _ => none }

/-- A schema class accepting every input, dumping the params as given. -/
def acceptAllSchema (name : String) : Schema :=
  { name := name, validate := fun ps => some (.obj ps) }

/-! ### Helper lemmas -/

theorem make_request_no_token (c : ApiClient) (t : Transport) (url method : String)
    (p : Option JVal) (htok : c.tokenTruthy = false) :
    c.make_request t url method p = (.error (.localError noTokenResponse), c, []) := by
  simp [ApiClient.make_request, htok, noTokenResponse]

theorem make_request_bad_verb (c : ApiClient) (t : Transport) (url method : String)
    (p : Option JVal) (htok : c.tokenTruthy = true) (hsv : supportedVerb method = false) :
    c.make_request t url method p =
      (.error (.localError
        { status_code := 405,
          error_message := some ("Method not supported: " ++ method) }), c, []) := by
  simp [ApiClient.make_request, htok, hsv]

theorem make_request_dispatch (c : ApiClient) (t : Transport) (url method : String)
    (p : Option JVal) (htok : c.tokenTruthy = true) (hsv : supportedVerb method = true) :
    c.make_request t url method p =
      (classify (t (mkCall c url method p)), c, [mkCall c url method p]) := by
  simp [ApiClient.make_request, htok, hsv]

theorem classify_200 (r : HttpResponse) (h : r.status_code = 200) :
    classify r = .ok { status_code := 200, response := some r.json } := by
  simp [classify, h]

theorem classify_204 (r : HttpResponse) (h : r.status_code = 204) :
    classify r = .ok { status_code := 204 } := by
  simp [classify, h]

theorem classify_4xx (r : HttpResponse) (h1 : 400 ≤ r.status_code)
    (h2 : r.status_code < 500) :
    classify r = .error (.clientError
      { status_code := r.status_code, error_message := some r.content }) := by
  have hne200 : r.status_code ≠ 200 := by omega
  have hne204 : r.status_code ≠ 204 := by omega
  simp [classify, hne200, hne204, h1, h2]

theorem classify_5xx (r : HttpResponse) (h1 : 500 ≤ r.status_code)
    (h2 : r.status_code < 600) :
    classify r = .error (.serverError
      { status_code := r.status_code, error_message := some r.content }) := by
  have hne200 : r.status_code ≠ 200 := by omega
  have hne204 : r.status_code ≠ 204 := by omega
  have hn4 : ¬(400 ≤ r.status_code ∧ r.status_code < 500) := by omega
  simp [classify, hne200, hne204, hn4, h1, h2]

theorem classify_other (r : HttpResponse) (hne200 : r.status_code ≠ 200)
    (hne204 : r.status_code ≠ 204)
    (h : r.status_code < 400 ∨ 600 ≤ r.status_code) :
    classify r = .error (.genericError
      { status_code := r.status_code, error_message := some r.content }) := by
  have hn4 : ¬(400 ≤ r.status_code ∧ r.status_code < 500) := by omega
  have hn5 : ¬(500 ≤ r.status_code ∧ r.status_code < 600) := by omega
  simp [classify, hne200, hne204, hn4, hn5]

theorem classify_raised (r : HttpResponse) (hne200 : r.status_code ≠ 200)
    (hne204 : r.status_code ≠ 204) :
    raised (classify r) = true := by
  unfold classify
  repeat' split
  all_goals simp_all [raised]

/-! ### Claims -/

/-- C5: a dispatch with a non-empty token and a verb outside
get/post/put/patch/delete raises LocalError with a 405 envelope and issues
no network call. -/
theorem unsupported_verb_local_405 (c : ApiClient) (t : Transport)
    (url method : String) (p : Option JVal)
    (htok : c.tokenTruthy = true) (hsv : supportedVerb method = false) :
    c.make_request t url method p =
      (.error (.localError
        { status_code := 405,
          error_message := some ("Method not supported: " ++ method) }), c, []) := by
  simp [ApiClient.make_request, htok, hsv]

/-- Witness for C5: a concrete dispatch with verb "head" on an authenticated
client fails locally with the 405 envelope and an empty call trace. -/
theorem unsupported_verb_local_405_witness :
    authedClient.tokenTruthy = true ∧ supportedVerb "head" = false ∧
      authedClient.make_request (demoTransport { status_code := 200, json := .null, content := "" })
          "http://ms/api/media/dump" "head" none =
        (.error (.localError
          { status_code := 405,
            error_message := some ("Method not supported: " ++ "head") }), authedClient, []) :=
  ⟨rfl, rfl,
    unsupported_verb_local_405 authedClient
      (demoTransport { status_code := 200, json := .null, content := "" })
      "http://ms/api/media/dump" "head" none rfl rfl⟩

/-- C2: for every supported verb and a non-empty token, a 200 transport
response makes make_request return the envelope with the parsed JSON body,
and a 204 response returns the bare 204 envelope with body and error message
absent. -/
theorem dispatch_success_envelopes (c : ApiClient) (t : Transport)
    (url method : String) (p : Option JVal)
    (htok : c.tokenTruthy = true)
    (hm : method = "get" ∨ method = "post" ∨ method = "put" ∨
      method = "patch" ∨ method = "delete") :
    ((t (mkCall c url method p)).status_code = 200 →
      c.make_request t url method p =
        (.ok { status_code := 200, response := some (t (mkCall c url method p)).json },
          c, [mkCall c url method p])) ∧
    ((t (mkCall c url method p)).status_code = 204 →
      c.make_request t url method p =
        (.ok { status_code := 204, response := none, error_message := none },
          c, [mkCall c url method p])) := by
  have hsv : supportedVerb method = true := by
    rcases hm with h | h | h | h | h <;> simp [supportedVerb, h]
  rw [make_request_dispatch c t url method p htok hsv]
  constructor
  · intro h200
    rw [classify_200 _ h200]
  · intro h204
    rw [classify_204 _ h204]

/-- Witness for C2: an authenticated get against a 200 transport returns the
parsed body, and against a 204 transport returns the bare envelope. -/
theorem dispatch_success_envelopes_witness :
    authedClient.make_request
        (demoTransport { status_code := 200, json := .str "payload", content := "" })
        "http://ms/api/media/dump" "get" none =
      (.ok { status_code := 200, response := some (.str "payload") }, authedClient,
        [mkCall authedClient "http://ms/api/media/dump" "get" none]) ∧
    authedClient.make_request
        (demoTransport { status_code := 204, json := .null, content := "" })
        "http://ms/api/media/x" "delete" none =
      (.ok { status_code := 204, response := none, error_message := none }, authedClient,
        [mkCall authedClient "http://ms/api/media/x" "delete" none]) :=
  ⟨(dispatch_success_envelopes authedClient
      (demoTransport { status_code := 200, json := .str "payload", content := "" })
      "http://ms/api/media/dump" "get" none rfl (Or.inl rfl)).1 rfl,
   (dispatch_success_envelopes authedClient
      (demoTransport { status_code := 204, json := .null, content := "" })
      "http://ms/api/media/x" "delete" none rfl
      (Or.inr (Or.inr (Or.inr (Or.inr rfl))))).2 rfl⟩

/-- C3: with a valid token and supported verb, a 4xx status raises
ClientError wrapping an envelope with the raw body as error message, a 5xx
raises ServerError likewise, any other non-200/204 status raises a generic
error wrapping such an envelope, and make_request never returns normally for
a status other than 200 or 204. -/
theorem dispatch_error_mapping (c : ApiClient) (t : Transport)
    (url method : String) (p : Option JVal)
    (htok : c.tokenTruthy = true)
    (hm : method = "get" ∨ method = "post" ∨ method = "put" ∨
      method = "patch" ∨ method = "delete") :
    (400 ≤ (t (mkCall c url method p)).status_code →
      (t (mkCall c url method p)).status_code < 500 →
      c.make_request t url method p =
        (.error (.clientError
          { status_code := (t (mkCall c url method p)).status_code,
            error_message := some (t (mkCall c url method p)).content }),
          c, [mkCall c url method p])) ∧
    (500 ≤ (t (mkCall c url method p)).status_code →
      (t (mkCall c url method p)).status_code < 600 →
      c.make_request t url method p =
        (.error (.serverError
          { status_code := (t (mkCall c url method p)).status_code,
            error_message := some (t (mkCall c url method p)).content }),
          c, [mkCall c url method p])) ∧
    ((t (mkCall c url method p)).status_code ≠ 200 →
      (t (mkCall c url method p)).status_code ≠ 204 →
      ((t (mkCall c url method p)).status_code < 400 ∨
        600 ≤ (t (mkCall c url method p)).status_code) →
      c.make_request t url method p =
        (.error (.genericError
          { status_code := (t (mkCall c url method p)).status_code,
            error_message := some (t (mkCall c url method p)).content }),
          c, [mkCall c url method p])) ∧
    ((t (mkCall c url method p)).status_code ≠ 200 →
      (t (mkCall c url method p)).status_code ≠ 204 →
      raised (c.make_request t url method p).1 = true) := by
  have hsv : supportedVerb method = true := by
    rcases hm with h | h | h | h | h <;> simp [supportedVerb, h]
  rw [make_request_dispatch c t url method p htok hsv]
  refine ⟨?_, ?_, ?_, ?_⟩
  · intro h1 h2
    rw [classify_4xx _ h1 h2]
  · intro h1 h2
    rw [classify_5xx _ h1 h2]
  · intro h1 h2 h3
    rw [classify_other _ h1 h2 h3]
  · intro h1 h2
    exact classify_raised _ h1 h2

/-- Witness for C3: concrete 422, 503 and 302 responses map to ClientError,
ServerError and the generic error respectively, none returning normally. -/
theorem dispatch_error_mapping_witness :
    (authedClient.make_request
        (demoTransport { status_code := 422, json := .null, content := "bad payload" })
        "http://ms/api/media" "post" none =
      (.error (.clientError { status_code := 422, error_message := some "bad payload" }),
        authedClient, [mkCall authedClient "http://ms/api/media" "post" none])) ∧
    (authedClient.make_request
        (demoTransport { status_code := 503, json := .null, content := "down" })
        "http://ms/api/media" "post" none =
      (.error (.serverError { status_code := 503, error_message := some "down" }),
        authedClient, [mkCall authedClient "http://ms/api/media" "post" none])) ∧
    (authedClient.make_request
        (demoTransport { status_code := 302, json := .null, content := "moved" })
        "http://ms/api/media" "post" none =
      (.error (.genericError { status_code := 302, error_message := some "moved" }),
        authedClient, [mkCall authedClient "http://ms/api/media" "post" none])) ∧
    raised (authedClient.make_request
        (demoTransport { status_code := 302, json := .null, content := "moved" })
        "http://ms/api/media" "post" none).1 = true :=
  ⟨(dispatch_error_mapping authedClient
      (demoTransport { status_code := 422, json := .null, content := "bad payload" })
      "http://ms/api/media" "post" none rfl (Or.inr (Or.inl rfl))).1
        (by decide) (by decide),
   (dispatch_error_mapping authedClient
      (demoTransport { status_code := 503, json := .null, content := "down" })
      "http://ms/api/media" "post" none rfl (Or.inr (Or.inl rfl))).2.1
        (by decide) (by decide),
   (dispatch_error_mapping authedClient
      (demoTransport { status_code := 302, json := .null, content := "moved" })
      "http://ms/api/media" "post" none rfl (Or.inr (Or.inl rfl))).2.2.1
        (by decide) (by decide) (Or.inl (by decide)),
   (dispatch_error_mapping authedClient
      (demoTransport { status_code := 302, json := .null, content := "moved" })
      "http://ms/api/media" "post" none rfl (Or.inr (Or.inl rfl))).2.2.2
        (by decide) (by decide)⟩

/-- C1 counterexample: `hello` does not delegate to make_request and
performs no token check — on a client with no token it still issues the
network request and returns the 200 body instead of raising
LocalError(401). -/
theorem hello_no_token_still_calls_network :
    noTokenClient.hello (demoTransport { status_code := 200, json := .null, content := "" }) =
      (.ok .null, noTokenClient,
        [{ method := "get", url := "http://ms/api/hello", headers := none, body := none }]) ∧
    isLocalError (noTokenClient.hello
      (demoTransport { status_code := 200, json := .null, content := "" })).1 = false := by
  constructor <;> rfl

/-- C1 amended: every operation that dispatches through make_request fails
fast when the token is unset or empty — LocalError with the synthetic 401
envelope and no network call (for create_store this applies once its schema
validation has passed) — but hello does not delegate to make_request,
performs no token check, and issues its network request regardless. -/
theorem no_token_fails_fast_for_dispatching_ops (c : ApiClient) (t : Transport)
    (url method : String) (p : Option JVal) (pid : String) (pids : List String)
    (l : List MetadataItem) (s : Schema) (ty bucket : String) (s3 : Option String)
    (d : JVal) (htok : c.tokenTruthy = false) :
    c.make_request t url method p = (.error (.localError noTokenResponse), c, []) ∧
    c.list_media t = (.error (.localError noTokenResponse), c, []) ∧
    c.get_single_media t pid = (.error (.localError noTokenResponse), c, []) ∧
    c.delete_single_media t pid = (.error (.localError noTokenResponse), c, []) ∧
    c.get_bulk_media t pids = (.error (.localError noTokenResponse), c, []) ∧
    c.delete_bulk_media t pids = (.error (.localError noTokenResponse), c, []) ∧
    c.update_media_metadata t l = (.error (.localError noTokenResponse), c, []) ∧
    c.patch_media_metadata t l = (.error (.localError noTokenResponse), c, []) ∧
    c.delete_media_metadata t l = (.error (.localError noTokenResponse), c, []) ∧
    (s.validate (storeParams ty bucket s3) = some d →
      c.create_store t s ty bucket s3 = (.error (.localError noTokenResponse), c, [])) ∧
    (c.hello t).2.2 =
      [{ method := "get", url := c.base_url ++ "/api/hello", headers := c.headers,
          body := none }] := by
  refine ⟨make_request_no_token c t url method p htok,
    make_request_no_token c t _ _ _ htok,
    make_request_no_token c t _ _ _ htok,
    make_request_no_token c t _ _ _ htok,
    make_request_no_token c t _ _ _ htok,
    make_request_no_token c t _ _ _ htok,
    make_request_no_token c t _ _ _ htok,
    make_request_no_token c t _ _ _ htok,
    make_request_no_token c t _ _ _ htok,
    ?_, ?_⟩
  · intro hv
    have hok : c.validate_schema s (storeParams ty bucket s3) = .ok d := by
      simp [ApiClient.validate_schema, hv]
    simp only [ApiClient.create_store, hok]
    exact make_request_no_token c t _ _ _ htok
  · simp only [ApiClient.hello]
    split <;> rfl

/-- Witness for C1 amended: on a concrete tokenless client, list_media and a
schema-valid create_store fail with the 401 LocalError and an empty call
trace, while hello still issues its request. -/
theorem no_token_fails_fast_witness :
    noTokenClient.list_media
        (demoTransport { status_code := 200, json := .null, content := "" }) =
      (.error (.localError noTokenResponse), noTokenClient, []) ∧
    noTokenClient.create_store
        (demoTransport { status_code := 200, json := .null, content := "" })
        (acceptAllSchema "StoreConfigSchemaCreate") "DictStore" "b" none =
      (.error (.localError noTokenResponse), noTokenClient, []) ∧
    (noTokenClient.hello
        (demoTransport { status_code := 200, json := .null, content := "" })).2.2 =
      [{ method := "get", url := "http://ms" ++ "/api/hello", headers := none,
          body := none }] :=
  ⟨(no_token_fails_fast_for_dispatching_ops noTokenClient
      (demoTransport { status_code := 200, json := .null, content := "" })
      "" "get" none "p1" [] [] (acceptAllSchema "StoreConfigSchemaCreate")
      "DictStore" "b" none (.obj (storeParams "DictStore" "b" none)) rfl).2.1,
   (no_token_fails_fast_for_dispatching_ops noTokenClient
      (demoTransport { status_code := 200, json := .null, content := "" })
      "" "get" none "p1" [] [] (acceptAllSchema "StoreConfigSchemaCreate")
      "DictStore" "b" none (.obj (storeParams "DictStore" "b" none)) rfl).2.2.2.2.2.2.2.2.2.1 rfl,
   (no_token_fails_fast_for_dispatching_ops noTokenClient
      (demoTransport { status_code := 200, json := .null, content := "" })
      "" "get" none "p1" [] [] (acceptAllSchema "StoreConfigSchemaCreate")
      "DictStore" "b" none (.obj (storeParams "DictStore" "b" none)) rfl).2.2.2.2.2.2.2.2.2.2⟩

/-- C4 counterexample: a non-200 login response raises a plain Exception
with a message (no envelope), not a LocalError as the claim states. -/
theorem login_non_200_raises_plain_exception :
    noTokenClient.login (demoTransport { status_code := 500, json := .null, content := "" }) =
      (.error (.exception "Failed to retrieve token. Status code: 500"),
        noTokenClient, [loginCall noTokenClient]) ∧
    isLocalError (noTokenClient.login
      (demoTransport { status_code := 500, json := .null, content := "" })).1 = false := by
  constructor <;> rfl

/-- C4 amended: a login receiving a non-200 status, or a 200 response whose
dict body lacks a token field, fails with a plain Exception (not LocalError);
the token stays unset and no Authorization headers are derived, so every
subsequent operation fails its token precondition with LocalError(401). -/
theorem login_failure_leaves_token_unset (c : ApiClient) (t : Transport)
    (url method : String) (p : Option JVal) (fields : List (String × JVal))
    (hc : c.token = none) :
    ((t (loginCall c)).status_code ≠ 200 →
      c.login t = (.error (.exception ("Failed to retrieve token. Status code: "
        ++ toString (t (loginCall c)).status_code)), c, [loginCall c])) ∧
    ((t (loginCall c)).status_code = 200 →
      (t (loginCall c)).json = .obj fields →
      fields.lookup "token" = none →
      c.login t = (.error (.exception "Token not found in response."), c, [loginCall c])) ∧
    c.tokenTruthy = false ∧
    c.make_request t url method p = (.error (.localError noTokenResponse), c, []) := by
  have htok : c.tokenTruthy = false := by
    simp [ApiClient.tokenTruthy, hc]
  refine ⟨?_, ?_, htok, make_request_no_token c t url method p htok⟩
  · intro hne
    simp [ApiClient.login, hne]
  · intro h200 hj hl
    have hcc : ({ c with token := none } : ApiClient) = c := by
      cases c
      simp_all
    simp [ApiClient.login, h200, hj, JVal.lookup, hl, hcc]

/-- Witness for C4 amended: on a concrete fresh client, a 500 login and a
200 login with an empty dict body both fail with the plain Exception, and a
subsequent dispatch fails with LocalError(401). -/
theorem login_failure_leaves_token_unset_witness :
    noTokenClient.login (demoTransport { status_code := 502, json := .null, content := "" }) =
      (.error (.exception "Failed to retrieve token. Status code: 502"),
        noTokenClient, [loginCall noTokenClient]) ∧
    noTokenClient.login (demoTransport { status_code := 200, json := .obj [], content := "" }) =
      (.error (.exception "Token not found in response."),
        noTokenClient, [loginCall noTokenClient]) ∧
    noTokenClient.make_request
        (demoTransport { status_code := 200, json := .null, content := "" })
        "http://ms/api/media/dump" "get" none =
      (.error (.localError noTokenResponse), noTokenClient, []) :=
  ⟨(login_failure_leaves_token_unset noTokenClient
      (demoTransport { status_code := 502, json := .null, content := "" })
      "http://ms/api/media/dump" "get" none [] rfl).1 (by decide),
   (login_failure_leaves_token_unset noTokenClient
      (demoTransport { status_code := 200, json := .obj [], content := "" })
      "http://ms/api/media/dump" "get" none [] rfl).2.1 rfl rfl rfl,
   (login_failure_leaves_token_unset noTokenClient
      (demoTransport { status_code := 200, json := .null, content := "" })
      "http://ms/api/media/dump" "get" none [] rfl).2.2.2⟩

theorem classify_envelope (r : HttpResponse) :
    ∀ env : ApiResponse, resultEnvelope (classify r) = some env →
      (env.status_code = 200 → env.response.isSome = true) ∧
      (env.status_code = 204 → env.response = none) ∧
      (env.status_code ≠ 200 → env.status_code ≠ 204 →
        env.error_message.isSome = true ∧ raised (classify r) = true) := by
  intro env henv
  by_cases h200 : r.status_code = 200
  · rw [classify_200 r h200] at henv
    simp only [resultEnvelope, Option.some.injEq] at henv
    subst henv
    refine ⟨fun _ => rfl, fun h => by simp at h, fun hne _ => absurd rfl hne⟩
  · by_cases h204 : r.status_code = 204
    · rw [classify_204 r h204] at henv
      simp only [resultEnvelope, Option.some.injEq] at henv
      subst henv
      refine ⟨fun h => by simp at h, fun _ => rfl, fun _ hne => absurd rfl hne⟩
    · have hraised := classify_raised r h200 h204
      by_cases h4 : 400 ≤ r.status_code ∧ r.status_code < 500
      · rw [classify_4xx r h4.1 h4.2] at henv
        simp only [resultEnvelope, Option.some.injEq] at henv
        subst henv
        exact ⟨fun h => absurd h h200, fun h => absurd h h204,
          fun _ _ => ⟨rfl, hraised⟩⟩
      · by_cases h5 : 500 ≤ r.status_code ∧ r.status_code < 600
        · rw [classify_5xx r h5.1 h5.2] at henv
          simp only [resultEnvelope, Option.some.injEq] at henv
          subst henv
          exact ⟨fun h => absurd h h200, fun h => absurd h h204,
            fun _ _ => ⟨rfl, hraised⟩⟩
        · have hother : r.status_code < 400 ∨ 600 ≤ r.status_code := by omega
          rw [classify_other r h200 h204 hother] at henv
          simp only [resultEnvelope, Option.some.injEq] at henv
          subst henv
          exact ⟨fun h => absurd h h200, fun h => absurd h h204,
            fun _ _ => ⟨rfl, hraised⟩⟩

/-- C6 counterexample: a 201 transport response yields an envelope with
status 201 — a 2xx — whose body is absent (it is the generic-error envelope
carrying only the raw content), contradicting the claim that every 2xx
envelope has its body present. -/
theorem envelope_201_lacks_body :
    authedClient.make_request
        (demoTransport { status_code := 201, json := .null, content := "created" })
        "http://ms/api/media" "post" none =
      (.error (.genericError { status_code := 201, error_message := some "created" }),
        authedClient, [mkCall authedClient "http://ms/api/media" "post" none]) ∧
    resultEnvelope (authedClient.make_request
        (demoTransport { status_code := 201, json := .null, content := "created" })
        "http://ms/api/media" "post" none).1 =
      some { status_code := 201, response := none, error_message := some "created" } := by
  constructor <;> rfl

/-- C6 amended: every envelope produced by make_request satisfies — for a
200 result the body is present; for a 204 the body is absent; for any other
status (4xx/5xx and also 2xx codes such as 201) the error_message is present
and the envelope is attached to a raised error rather than returned. -/
theorem envelope_invariant_by_status (c : ApiClient) (t : Transport)
    (url method : String) (p : Option JVal) :
    ∀ env : ApiResponse,
      resultEnvelope (c.make_request t url method p).1 = some env →
        (env.status_code = 200 → env.response.isSome = true) ∧
        (env.status_code = 204 → env.response = none) ∧
        (env.status_code ≠ 200 → env.status_code ≠ 204 →
          env.error_message.isSome = true ∧
            raised (c.make_request t url method p).1 = true) := by
  intro env henv
  by_cases htok : c.tokenTruthy = false
  · rw [make_request_no_token c t url method p htok] at henv ⊢
    simp only [resultEnvelope, Option.some.injEq] at henv
    subst henv
    refine ⟨?_, ?_, ?_⟩ <;> intros <;> simp_all [noTokenResponse, raised]
  · have htok2 : c.tokenTruthy = true := by
      cases h : c.tokenTruthy
      · exact absurd h htok
      · rfl
    by_cases hsv : supportedVerb method = true
    · rw [make_request_dispatch c t url method p htok2 hsv] at henv ⊢
      exact classify_envelope (t (mkCall c url method p)) env henv
    · have hsv2 : supportedVerb method = false := by
        cases h : supportedVerb method
        · rfl
        · exact absurd h hsv
      rw [make_request_bad_verb c t url method p htok2 hsv2] at henv ⊢
      simp only [resultEnvelope, Option.some.injEq] at henv
      subst henv
      refine ⟨?_, ?_, ?_⟩ <;> intros <;> simp_all [raised]

/-- Witness for C6 amended: on a concrete 204 dispatch the produced envelope
has an absent body. -/
theorem envelope_invariant_by_status_witness :
    ({ status_code := 204, response := none, error_message := none } : ApiResponse).status_code = 204 ∧
    ({ status_code := 204, response := none, error_message := none } : ApiResponse).response = none :=
  ⟨rfl,
    (envelope_invariant_by_status authedClient
      (demoTransport { status_code := 204, json := .null, content := "" })
      "http://ms/api/media/x" "delete" none
      { status_code := 204, response := none, error_message := none } rfl).2.1 rfl⟩

theorem make_request_preserves (c : ApiClient) (t : Transport) (url method : String)
    (p : Option JVal) :
    (c.make_request t url method p).2.1 = c ∧
    callsCarryHeaders c.headers (c.make_request t url method p).2.2 = true := by
  unfold ApiClient.make_request
  by_cases htok : c.tokenTruthy = false
  · simp [htok, callsCarryHeaders]
  · by_cases hsv : supportedVerb method = false
    · simp [htok, hsv, callsCarryHeaders]
    · simp [htok, hsv, callsCarryHeaders, mkCall]

/-- C7: the token is write-once — apart from login, no client operation
changes the token or the derived Authorization headers, and every network
call each operation issues carries exactly the stored headers, hence the
same Bearer token for the lifetime of the client. -/
theorem token_and_headers_never_mutated (c : ApiClient) (t : Transport)
    (url method : String) (p : Option JVal) (pid : String) (pids : List String)
    (l : List MetadataItem) (s s2 : Schema) (ty bucket akey skey surl : String)
    (s3 : Option String) (cfg : List (String × JVal))
    (ident meta tags : Option JVal) :
    ((c.make_request t url method p).2.1 = c ∧
      callsCarryHeaders c.headers (c.make_request t url method p).2.2 = true) ∧
    ((c.hello t).2.1 = c ∧
      callsCarryHeaders c.headers (c.hello t).2.2 = true) ∧
    ((c.list_media t).2.1 = c ∧
      callsCarryHeaders c.headers (c.list_media t).2.2 = true) ∧
    ((c.get_single_media t pid).2.1 = c ∧
      callsCarryHeaders c.headers (c.get_single_media t pid).2.2 = true) ∧
    ((c.delete_single_media t pid).2.1 = c ∧
      callsCarryHeaders c.headers (c.delete_single_media t pid).2.2 = true) ∧
    ((c.get_bulk_media t pids).2.1 = c ∧
      callsCarryHeaders c.headers (c.get_bulk_media t pids).2.2 = true) ∧
    ((c.delete_bulk_media t pids).2.1 = c ∧
      callsCarryHeaders c.headers (c.delete_bulk_media t pids).2.2 = true) ∧
    ((c.update_media_metadata t l).2.1 = c ∧
      callsCarryHeaders c.headers (c.update_media_metadata t l).2.2 = true) ∧
    ((c.patch_media_metadata t l).2.1 = c ∧
      callsCarryHeaders c.headers (c.patch_media_metadata t l).2.2 = true) ∧
    ((c.delete_media_metadata t l).2.1 = c ∧
      callsCarryHeaders c.headers (c.delete_media_metadata t l).2.2 = true) ∧
    ((c.create_store t s ty bucket s3).2.1 = c ∧
      callsCarryHeaders c.headers (c.create_store t s ty bucket s3).2.2 = true) ∧
    ((c.create_s3cfg t s surl akey skey).2.1 = c ∧
      callsCarryHeaders c.headers (c.create_s3cfg t s surl akey skey).2.2 = true) ∧
    ((c.create_single_media t s s2 pid ty cfg ident meta tags).2.1 = c ∧
      callsCarryHeaders c.headers
        (c.create_single_media t s s2 pid ty cfg ident meta tags).2.2 = true) := by
  refine ⟨make_request_preserves c t url method p, ?_,
    make_request_preserves c t _ _ _,
    make_request_preserves c t _ _ _,
    make_request_preserves c t _ _ _,
    make_request_preserves c t _ _ _,
    make_request_preserves c t _ _ _,
    make_request_preserves c t _ _ _,
    make_request_preserves c t _ _ _,
    make_request_preserves c t _ _ _,
    ?_, ?_, ?_⟩
  · simp only [ApiClient.hello]
    split <;> simp [callsCarryHeaders]
  · cases hv : s.validate (storeParams ty bucket s3) with
    | none => simp [ApiClient.create_store, ApiClient.validate_schema, hv, callsCarryHeaders]
    | some d =>
      simp only [ApiClient.create_store, ApiClient.validate_schema, hv]
      exact make_request_preserves c t _ _ _
  · cases hv : s.validate (s3cfgParams surl akey skey) with
    | none => simp [ApiClient.create_s3cfg, ApiClient.validate_schema, hv, callsCarryHeaders]
    | some d =>
      simp only [ApiClient.create_s3cfg, ApiClient.validate_schema, hv]
      exact make_request_preserves c t _ _ _
  · cases hv : s.validate cfg with
    | none => simp [ApiClient.create_single_media, hv, callsCarryHeaders]
    | some sc_obj =>
      cases hm : s2.validate (mediaParams pid ty sc_obj ident meta tags) with
      | none =>
        simp [ApiClient.create_single_media, ApiClient.validate_schema, hv, hm,
          callsCarryHeaders]
      | some media =>
        simp only [ApiClient.create_single_media, ApiClient.validate_schema, hv, hm]
        exact make_request_preserves c t _ _ _

/-- C8: the three bulk metadata variants all target
/api/media/update/metadata, with update_media_metadata dispatching verb
put, patch_media_metadata verb patch and delete_media_metadata verb delete,
each passing the list of per-pid dumps (pid plus optional keys/data) as the
request body. -/
theorem metadata_variants_select_verbs (c : ApiClient) (t : Transport)
    (metadata_list : List MetadataItem) :
    c.update_media_metadata t metadata_list =
      c.make_request t (c.base_url ++ "/api/media/update/metadata") "put"
        (some (.arr (metadata_list.map MediaSchemaUpdateMetadata_dump))) ∧
    c.patch_media_metadata t metadata_list =
      c.make_request t (c.base_url ++ "/api/media/update/metadata") "patch"
        (some (.arr (metadata_list.map MediaSchemaUpdateMetadata_dump))) ∧
    c.delete_media_metadata t metadata_list =
      c.make_request t (c.base_url ++ "/api/media/update/metadata") "delete"
        (some (.arr (metadata_list.map MediaSchemaUpdateMetadata_dump))) :=
  ⟨rfl, rfl, rfl⟩

/-- C9: make_request attaches a structured body exactly when params is
truthy — falsy params (none, empty dict, empty list, as in get_bulk_media []
or delete_bulk_media []) issue a request with auth headers only and no
body, indistinguishable from a call made with no params at all. -/
theorem body_present_iff_params_truthy (c : ApiClient) (t : Transport)
    (url method : String) (p : Option JVal)
    (htok : c.tokenTruthy = true) (hsv : supportedVerb method = true) :
    (c.make_request t url method p).2.2 = [mkCall c url method p] ∧
    (mkCall c url method p).body = requestBody p ∧
    (requestBody p).isSome = paramsTruthy p ∧
    (paramsTruthy p = false →
      mkCall c url method p =
        { method := method, url := url, headers := c.headers, body := none } ∧
      c.make_request t url method p = c.make_request t url method none) ∧
    c.get_bulk_media t [] =
      c.make_request t (c.base_url ++ "/api/media/read") "post" none ∧
    c.delete_bulk_media t [] =
      c.make_request t (c.base_url ++ "/api/media/delete") "post" none := by
  refine ⟨?_, rfl, ?_, ?_, ?_, ?_⟩
  · rw [make_request_dispatch c t url method p htok hsv]
  · cases p with
    | none => rfl
    | some v => cases hv : v.truthy <;> simp [requestBody, paramsTruthy, hv]
  · intro hf
    have hbody : requestBody p = none := by
      simp [requestBody, hf]
    constructor
    · simp [mkCall, hbody]
    · have hcall : mkCall c url method p = mkCall c url method none := by
        unfold mkCall
        rw [hbody]
        rfl
      unfold ApiClient.make_request
      rw [hcall]
  · have hcall : mkCall c (c.base_url ++ "/api/media/read") "post"
        (some (.arr (([] : List String).map .str))) =
        mkCall c (c.base_url ++ "/api/media/read") "post" none := rfl
    unfold ApiClient.get_bulk_media ApiClient.make_request
    rw [hcall]
  · have hcall : mkCall c (c.base_url ++ "/api/media/delete") "post"
        (some (.arr (([] : List String).map .str))) =
        mkCall c (c.base_url ++ "/api/media/delete") "post" none := rfl
    unfold ApiClient.delete_bulk_media ApiClient.make_request
    rw [hcall]

/-- Witness for C9: a concrete authenticated dispatch with an empty-list
params issues the same bodiless call as one with no params. -/
theorem body_present_iff_params_truthy_witness :
    authedClient.make_request
        (demoTransport { status_code := 200, json := .null, content := "" })
        "http://ms/api/media/read" "post" (some (.arr [])) =
      authedClient.make_request
        (demoTransport { status_code := 200, json := .null, content := "" })
        "http://ms/api/media/read" "post" none ∧
    authedClient.get_bulk_media
        (demoTransport { status_code := 200, json := .null, content := "" }) [] =
      authedClient.make_request
        (demoTransport { status_code := 200, json := .null, content := "" })
        ("http://ms" ++ "/api/media/read") "post" none :=
  ⟨((body_present_iff_params_truthy authedClient
      (demoTransport { status_code := 200, json := .null, content := "" })
      "http://ms/api/media/read" "post" (some (.arr [])) rfl rfl).2.2.2.1 rfl).2,
   (body_present_iff_params_truthy authedClient
      (demoTransport { status_code := 200, json := .null, content := "" })
      "http://ms/api/media/read" "post" (some (.arr [])) rfl rfl).2.2.2.2.1⟩

/-- C10 counterexample: create_single_media with a store_config rejected by
the schema library fails with the escaped raw ValidationError — not with a
ClientError(400) — because StoreConfigSchemaCreate is constructed outside
validate_schema. -/
theorem create_single_media_invalid_store_config_not_client_error :
    authedClient.create_single_media
        (demoTransport { status_code := 200, json := .null, content := "" })
        (rejectAllSchema "StoreConfigSchemaCreate") (acceptAllSchema "MediaSchemaCreate")
        "p1" "DEMO" [] =
      (.error (.validationError "StoreConfigSchemaCreate"), authedClient, []) ∧
    isClientError (authedClient.create_single_media
        (demoTransport { status_code := 200, json := .null, content := "" })
        (rejectAllSchema "StoreConfigSchemaCreate") (acceptAllSchema "MediaSchemaCreate")
        "p1" "DEMO" []).1 = false := by
  constructor <;> rfl

/-- C10 amended: validate_schema returns the validated dump on success and
turns a ValidationError into ClientError(400, Schema validation failed for
the schema class name) before any network call, so create_store and
create_s3cfg fail locally with ClientError(400) on schema-invalid input,
and create_single_media does so when MediaSchemaCreate rejects the
assembled params — but an invalid store_config escapes as the raw
ValidationError, raised by constructing StoreConfigSchemaCreate outside
validate_schema. -/
theorem schema_validation_fails_local_400 (c : ApiClient) (t : Transport)
    (s msc : Schema) (params : List (String × JVal)) (d sc_obj : JVal)
    (ty bucket akey skey surl pid pid_type : String) (s3 : Option String)
    (cfg : List (String × JVal)) :
    (s.validate params = some d → c.validate_schema s params = .ok d) ∧
    (s.validate params = none →
      c.validate_schema s params = .error (.clientError
        { status_code := 400,
          error_message := some ("Schema validation failed for " ++ s.name) })) ∧
    (s.validate (storeParams ty bucket s3) = none →
      c.create_store t s ty bucket s3 =
        (.error (.clientError
          { status_code := 400,
            error_message := some ("Schema validation failed for " ++ s.name) }), c, [])) ∧
    (s.validate (s3cfgParams surl akey skey) = none →
      c.create_s3cfg t s surl akey skey =
        (.error (.clientError
          { status_code := 400,
            error_message := some ("Schema validation failed for " ++ s.name) }), c, [])) ∧
    (s.validate cfg = some sc_obj →
      msc.validate (mediaParams pid pid_type sc_obj none none none) = none →
      c.create_single_media t s msc pid pid_type cfg =
        (.error (.clientError
          { status_code := 400,
            error_message := some ("Schema validation failed for " ++ msc.name) }), c, [])) ∧
    (s.validate cfg = none →
      c.create_single_media t s msc pid pid_type cfg =
        (.error (.validationError s.name), c, [])) := by
  refine ⟨?_, ?_, ?_, ?_, ?_, ?_⟩
  · intro hv
    simp [ApiClient.validate_schema, hv]
  · intro hv
    simp [ApiClient.validate_schema, hv]
  · intro hv
    simp [ApiClient.create_store, ApiClient.validate_schema, hv]
  · intro hv
    simp [ApiClient.create_s3cfg, ApiClient.validate_schema, hv]
  · intro hv hm
    simp [ApiClient.create_single_media, ApiClient.validate_schema, hv, hm]
  · intro hv
    simp [ApiClient.create_single_media, hv]

/-- Witness for C10 amended: a concrete always-rejecting schema class makes
create_store fail locally with ClientError(400) and the synthetic message,
and an accepted store_config with a rejecting MediaSchemaCreate makes
create_single_media do the same. -/
theorem schema_validation_fails_local_400_witness :
    authedClient.create_store
        (demoTransport { status_code := 200, json := .null, content := "" })
        (rejectAllSchema "StoreConfigSchemaCreate") "DictStore" "b" none =
      (.error (.clientError
        { status_code := 400,
          error_message := some ("Schema validation failed for " ++ "StoreConfigSchemaCreate") }),
        authedClient, []) ∧
    authedClient.create_single_media
        (demoTransport { status_code := 200, json := .null, content := "" })
        (acceptAllSchema "StoreConfigSchemaCreate") (rejectAllSchema "MediaSchemaCreate")
        "p1" "DEMO" [] =
      (.error (.clientError
        { status_code := 400,
          error_message := some ("Schema validation failed for " ++ "MediaSchemaCreate") }),
        authedClient, []) :=
  ⟨(schema_validation_fails_local_400 authedClient
      (demoTransport { status_code := 200, json := .null, content := "" })
      (rejectAllSchema "StoreConfigSchemaCreate") (acceptAllSchema "MediaSchemaCreate")
      [] .null (.obj []) "DictStore" "b" "a" "s" "u" "p1" "DEMO" none []).2.2.1 rfl,
   (schema_validation_fails_local_400 authedClient
      (demoTransport { status_code := 200, json := .null, content := "" })
      (acceptAllSchema "StoreConfigSchemaCreate") (rejectAllSchema "MediaSchemaCreate")
      [] .null (.obj []) "DictStore" "b" "a" "s" "u" "p1" "DEMO" none []).2.2.2.2.1 rfl rfl⟩

end MediaStoreClient
